import Mathlib

/-!
Shallow embedding of the STIMPL interpreter (`stimpl/runtime.py`).

The interpreter is a tree-walking evaluator mapping an expression and a
state (a persistent chain of variable bindings) to a value, a runtime
type tag and a new state, or an interpreter error.  The embedding below
translates `runtime.py` case by case.  Host-language (Python) behaviour
that the interpreter relies on — truthiness, the numeric tower in `==`
(`False == 0` is true), floor division `//`, string concatenation and
lexicographic order — is modelled explicitly by the `py*` helpers.
Python floats are modelled as exact rationals; no claim below depends on
rounding.  Since Python's `while` loop can run forever, `evaluate` takes
a fuel argument, decremented on every recursive call; `.fuelOut` marks
exhaustion and is distinct from every result the source can produce.
-/

namespace Stimpl

/-- The closed set of runtime type tags (`stimpl/types.py`), as consumed by
the dispatch in `runtime.py`; equality of tags is structural. -/
inductive Ty where
  | Unit
  | Integer
  | FloatingPoint
  | String
  | Boolean
deriving DecidableEq, Repr

/-- Runtime values: the payloads the evaluator stores and computes with
(Python `None`, `int`, `float`, `str`, `bool`).  Floats are modelled as
exact rationals. -/
inductive Value where
  | none
  | int (n : Int)
  | float (q : Rat)
  | str (s : String)
  | bool (b : Bool)
deriving DecidableEq, Repr

/-- Interpreter errors (`stimpl/errors.py`).  Messages keep the static
part of the source's f-strings. -/
inductive InterpError where
  | InterpSyntaxError (msg : String)
  | InterpTypeError (msg : String)
  | InterpMathError (msg : String)
deriving DecidableEq, Repr

/-- The interpreter state: `EmptyState` or a binding node
`State(variable_name, variable_value, variable_type, next_state)`
(`runtime.py`, classes `State`/`EmptyState`).  Nodes are never mutated;
`set_value` pushes a new head node. -/
inductive State where
  | emptyState
  | stateNode (variable_name : String) (variable_value : Value)
      (variable_type : Ty) (next_state : State)
deriving DecidableEq, Repr

/-- `State.set_value`: return a new state whose head is the new binding
and whose tail is the receiver (shadowing, not in-place update). -/
def State.set_value (self : State) (variable_name : String)
    (variable_value : Value) (variable_type : Ty) : State :=
  .stateNode variable_name variable_value variable_type self

/-- `State.get_value`: linear scan from the most recent binding; the
first match by name wins; `none` when no binding exists.  The source
returns the whole `(value, type)` tuple or Python `None`; a stored pair
is never confused with `None` even when the stored value is `None`. -/
def State.get_value : State → String → Option (Value × Ty)
  | .emptyState, _ => none
  | .stateNode n v t next, variable_name =>
    if n = variable_name then some (v, t) else next.get_value variable_name

/-- `State.copy`: duplicate only the head binding, keeping the same tail. -/
def State.copy : State → State
  | .emptyState => .emptyState
  | .stateNode n v t next => .stateNode n v t next

/-- The expression AST (`stimpl/expression.py`), with the constructors and
fields exactly as matched by `evaluate`'s dispatch in `runtime.py`.
`Ren` is this interpreter's unit literal (the spec's `UnitLiteral`).
`Assign`'s first field is the name of its `Variable` node (the evaluator
reads only `variable.variable_name` from it). -/
inductive Expr where
  | Ren
  | IntLiteral (literal : Int)
  | FloatingPointLiteral (literal : Rat)
  | StringLiteral (literal : String)
  | BooleanLiteral (literal : Bool)
  | Print (to_print : Expr)
  | Sequence (exprs : List Expr)
  | Program (exprs : List Expr)
  | Variable (variable_name : String)
  | Assign (variable_name : String) (value : Expr)
  | Add (left right : Expr)
  | Subtract (left right : Expr)
  | Multiply (left right : Expr)
  | Divide (left right : Expr)
  | And (left right : Expr)
  | Or (left right : Expr)
  | Not (expr : Expr)
  | If (condition true_branch false_branch : Expr)
  | Lt (left right : Expr)
  | Lte (left right : Expr)
  | Gt (left right : Expr)
  | Gte (left right : Expr)
  | Eq (left right : Expr)
  | Ne (left right : Expr)
  | While (condition body : Expr)

/-- Result of an evaluation step: the source's `(value, type, state)`
triple, a raised interpreter error, or fuel exhaustion (a modelling
artifact: the source just keeps running). -/
inductive Outcome where
  | ok (value : Value) (type : Ty) (state : State)
  | error (e : InterpError)
  | fuelOut
deriving DecidableEq, Repr

/-- Python truthiness (`bool(x)`) on the value universe the interpreter
uses; applied by `While`/`and`/`or`/`not` to Boolean-tagged values. -/
def Value.truthy : Value → Bool
  | .none => false
  | .int n => !(n == 0)
  | .float q => !(q == 0)
  | .str s => !(s == "")
  | .bool b => b

/-- View a value as a member of Python's numeric tower (`bool` counts as
`0`/`1`), used to model Python `==` and the ordered comparisons. -/
def Value.asRat? : Value → Option Rat
  | .int n => some (n : Rat)
  | .float q => some q
  | .bool b => some (if b then 1 else 0)
  | _ => Option.none

/-- Python `==` on the interpreter's values: numeric values compare
through the numeric tower (so `False == 0` is true), strings compare as
strings, `None == None`, and everything else is unequal. -/
def pyEq (a b : Value) : Bool :=
  match a.asRat?, b.asRat? with
  | some x, some y => x == y
  | _, _ =>
    match a, b with
    | .str s, .str t => s == t
    | .none, .none => true
    | _, _ => false

/-- Python `<`.  The evaluator only ever compares operands of equal
runtime type, so the cross-kind fallback (`false`, where Python would
raise) is unreachable. -/
def pyLt (a b : Value) : Bool :=
  match a.asRat?, b.asRat? with
  | some x, some y => x < y
  | _, _ =>
    match a, b with
    | .str s, .str t => s < t
    | _, _ => false

/-- Python `<=` (reachable only on operands of equal runtime type). -/
def pyLe (a b : Value) : Bool :=
  match a.asRat?, b.asRat? with
  | some x, some y => x ≤ y
  | _, _ =>
    match a, b with
    | .str s, .str t => s ≤ t
    | _, _ => false

/-- Python `>` on the comparable universe. -/
def pyGt (a b : Value) : Bool := pyLt b a

/-- Python `>=` on the comparable universe. -/
def pyGe (a b : Value) : Bool := pyLe b a

/-- Python `x and y`: `y` if `x` is truthy, else `x` (applied by the
evaluator only to Boolean-tagged operands). -/
def pyAnd (a b : Value) : Value := if a.truthy then b else a

/-- Python `x or y`: `x` if `x` is truthy, else `y`. -/
def pyOr (a b : Value) : Value := if a.truthy then a else b

/-- Python `+` as used under the `Integer`/`String`/`FloatingPoint` tag
match in `Add`; the default is unreachable (operands share a tag and a
tag's payload kind). -/
def pyAdd : Value → Value → Value
  | .int x, .int y => .int (x + y)
  | .float x, .float y => .float (x + y)
  | .str x, .str y => .str (x ++ y)
  | _, _ => .none

/-- Python `-` as used under the `Integer`/`FloatingPoint` tag match. -/
def pySub : Value → Value → Value
  | .int x, .int y => .int (x - y)
  | .float x, .float y => .float (x - y)
  | _, _ => .none

/-- Python `*` as used under the `Integer`/`FloatingPoint` tag match. -/
def pyMul : Value → Value → Value
  | .int x, .int y => .int (x * y)
  | .float x, .float y => .float (x * y)
  | _, _ => .none

/-- Python `//` as used under the `Integer` tag match of `Divide`:
floor division, `Int.fdiv`. -/
def pyFloordiv : Value → Value → Value
  | .int x, .int y => .int (Int.fdiv x y)
  | _, _ => .none

/-- Python `/` as used under the `FloatingPoint` tag match of `Divide`
(exact division on the rational model). -/
def pyTruediv : Value → Value → Value
  | .float x, .float y => .float (x / y)
  | _, _ => .none

/-- Sequential evaluation loop of the `Sequence`/`Program` case: start
from the default result `(None, Unit())`, evaluate each element in the
state produced by the previous one, return the last result.  A raised
error aborts the loop. -/
def evalSeqLoop (ev : Expr → State → Outcome) :
    List Expr → Value → Ty → State → Outcome
  | [], result, resultType, currState => .ok result resultType currState
  | expr :: rest, _, _, currState =>
    match ev expr currState with
    | .ok result resultType nextState => evalSeqLoop ev rest result resultType nextState
    | r => r

/-- The evaluator `evaluate(expression, state)` of `runtime.py`, case by
case, with a fuel bound spent on every recursive call.  The dispatcher's
`case _` (`InterpSyntaxError "Unhandled!"`) is dead here because `Expr`
is closed and every constructor is handled, as are the per-operator
`case _` arms that the closed five-tag `Ty` already covers.  `Print`'s
write to standard output is not modelled; its result and state are. -/
def evaluate : Nat → Expr → State → Outcome
  | 0, _, _ => .fuelOut
  | _ + 1, .Ren, state => .ok .none .Unit state
  | _ + 1, .IntLiteral l, state => .ok (.int l) .Integer state
  | _ + 1, .FloatingPointLiteral l, state => .ok (.float l) .FloatingPoint state
  | _ + 1, .StringLiteral l, state => .ok (.str l) .String state
  | _ + 1, .BooleanLiteral l, state => .ok (.bool l) .Boolean state
  | fuel + 1, .Print to_print, state => evaluate fuel to_print state
  | fuel + 1, .Sequence exprs, state => evalSeqLoop (evaluate fuel) exprs .none .Unit state
  | fuel + 1, .Program exprs, state => evalSeqLoop (evaluate fuel) exprs .none .Unit state
  | _ + 1, .Variable variable_name, state =>
    match state.get_value variable_name with
    | Option.none =>
      .error (.InterpSyntaxError ("Cannot read from " ++ variable_name ++ " before assignment."))
    | some (variable_value, variable_type) => .ok variable_value variable_type state
  | fuel + 1, .Assign variable_name value, state =>
    match evaluate fuel value state with
    | .ok value_result value_type new_state =>
      match new_state.get_value variable_name with
      | some (_, variable_type) =>
        if value_type ≠ variable_type then
          .error (.InterpTypeError "Mismatched types for Assignment")
        else
          .ok value_result value_type (new_state.set_value variable_name value_result value_type)
      | Option.none =>
        .ok value_result value_type (new_state.set_value variable_name value_result value_type)
    | r => r
  | fuel + 1, .Add left right, state =>
    match evaluate fuel left state with
    | .ok left_result left_type new_state =>
      match evaluate fuel right new_state with
      | .ok right_result right_type new_state2 =>
        if left_type ≠ right_type then .error (.InterpTypeError "Mismatched types for Add")
        else
          match left_type with
          | .Integer | .String | .FloatingPoint =>
            .ok (pyAdd left_result right_result) left_type new_state2
          | _ => .error (.InterpTypeError "Cannot add")
      | r => r
    | r => r
  | fuel + 1, .Subtract left right, state =>
    match evaluate fuel left state with
    | .ok leftResult leftType newState =>
      match evaluate fuel right newState with
      | .ok rightResult rightType newState2 =>
        if leftType ≠ rightType then .error (.InterpTypeError "Mismatched types for Subtract")
        else
          match leftType with
          | .Integer | .FloatingPoint =>
            .ok (pySub leftResult rightResult) leftType newState2
          | _ => .error (.InterpTypeError "Cannot Subtract")
      | r => r
    | r => r
  | fuel + 1, .Multiply left right, state =>
    match evaluate fuel left state with
    | .ok leftResult leftType newState =>
      match evaluate fuel right newState with
      | .ok rightResult rightType newState2 =>
        if leftType ≠ rightType then .error (.InterpTypeError "Mismatched types for Multiply")
        else
          match leftType with
          | .Integer | .FloatingPoint =>
            .ok (pyMul leftResult rightResult) leftType newState2
          | _ => .error (.InterpTypeError "Cannot Multiply")
      | r => r
    | r => r
  | fuel + 1, .Divide left right, state =>
    match evaluate fuel left state with
    | .ok leftResult leftType newState =>
      match evaluate fuel right newState with
      | .ok rightResult rightType newState2 =>
        if leftType ≠ rightType then .error (.InterpTypeError "Mismatched types for Divide")
        else if pyEq rightResult (.int 0) then .error (.InterpMathError "Cannot Divide by Zero")
        else
          match leftType with
          | .Integer => .ok (pyFloordiv leftResult rightResult) leftType newState2
          | .FloatingPoint => .ok (pyTruediv leftResult rightResult) leftType newState2
          | _ => .error (.InterpTypeError "Cannot Divide")
      | r => r
    | r => r
  | fuel + 1, .And left right, state =>
    match evaluate fuel left state with
    | .ok left_value left_type new_state =>
      match evaluate fuel right new_state with
      | .ok right_value right_type new_state2 =>
        if left_type ≠ right_type then .error (.InterpTypeError "Mismatched types for And")
        else
          match left_type with
          | .Boolean => .ok (pyAnd left_value right_value) left_type new_state2
          | _ => .error (.InterpTypeError "Cannot perform logical and on non-boolean operands.")
      | r => r
    | r => r
  | fuel + 1, .Or left right, state =>
    match evaluate fuel left state with
    | .ok leftResult leftType newState =>
      match evaluate fuel right newState with
      | .ok rightResult rightType newState2 =>
        if leftType ≠ rightType then .error (.InterpTypeError "Mismatched types for Or")
        else
          match leftType with
          | .Boolean => .ok (pyOr leftResult rightResult) leftType newState2
          | _ => .error (.InterpTypeError "Cannot perform logical or on non-boolean operands.")
      | r => r
    | r => r
  | fuel + 1, .Not expr, state =>
    match evaluate fuel expr state with
    | .ok exprResult exprType newState =>
      match exprType with
      | .Boolean => .ok (.bool (!exprResult.truthy)) exprType newState
      | _ => .error (.InterpTypeError "Cannot perform logical not on non-boolean operand.")
    | r => r
  | fuel + 1, .If condition true_branch false_branch, state =>
    match evaluate fuel condition state with
    | .ok condResult condType newState =>
      match condType with
      | .Boolean =>
        if pyEq condResult (.bool true) then evaluate fuel true_branch newState
        else evaluate fuel false_branch newState
      | _ => .error (.InterpTypeError "Cannot perform If conditional on non-boolean condition")
    | r => r
  | fuel + 1, .Lt left right, state =>
    match evaluate fuel left state with
    | .ok left_value left_type new_state =>
      match evaluate fuel right new_state with
      | .ok right_value right_type new_state2 =>
        if left_type ≠ right_type then .error (.InterpTypeError "Mismatched types for Lt")
        else
          match left_type with
          | .Integer | .Boolean | .String | .FloatingPoint =>
            .ok (.bool (pyLt left_value right_value)) .Boolean new_state2
          | .Unit => .ok (.bool false) .Boolean new_state2
      | r => r
    | r => r
  | fuel + 1, .Lte left right, state =>
    match evaluate fuel left state with
    | .ok leftVal leftType newState =>
      match evaluate fuel right newState with
      | .ok rightVal rightType newState2 =>
        if leftType ≠ rightType then .error (.InterpTypeError "Mismatched types for Lte")
        else
          match leftType with
          | .Integer | .Boolean | .String | .FloatingPoint =>
            .ok (.bool (pyLe leftVal rightVal)) .Boolean newState2
          | .Unit =>
            match rightType with
            | .Unit => .ok (.bool true) .Boolean newState2
            | _ => .ok (.bool false) .Boolean newState2
      | r => r
    | r => r
  | fuel + 1, .Gt left right, state =>
    match evaluate fuel left state with
    | .ok leftVal leftType newState =>
      match evaluate fuel right newState with
      | .ok rightVal rightType newState2 =>
        if leftType ≠ rightType then .error (.InterpTypeError "Mismatched types for Gt")
        else
          match leftType with
          | .Integer | .Boolean | .String | .FloatingPoint =>
            .ok (.bool (pyGt leftVal rightVal)) .Boolean newState2
          | .Unit => .ok (.bool false) .Boolean newState2
      | r => r
    | r => r
  | fuel + 1, .Gte left right, state =>
    match evaluate fuel left state with
    | .ok leftVal leftType newState =>
      match evaluate fuel right newState with
      | .ok rightVal rightType newState2 =>
        if leftType ≠ rightType then .error (.InterpTypeError "Mismatched types for Gte")
        else
          match leftType with
          | .Integer | .Boolean | .String | .FloatingPoint =>
            .ok (.bool (pyGe leftVal rightVal)) .Boolean newState2
          | .Unit =>
            match rightType with
            | .Unit => .ok (.bool true) .Boolean newState2
            | _ => .ok (.bool false) .Boolean newState2
      | r => r
    | r => r
  | fuel + 1, .Eq left right, state =>
    match evaluate fuel left state with
    | .ok leftVal leftType newState =>
      match evaluate fuel right newState with
      | .ok rightVal rightType newState2 =>
        if leftType ≠ rightType then .error (.InterpTypeError "Mismatched types for Eq")
        else
          match leftType with
          | .Integer | .Boolean | .String | .FloatingPoint =>
            .ok (.bool (pyEq leftVal rightVal)) .Boolean newState2
          | .Unit =>
            match rightType with
            | .Unit => .ok (.bool true) .Boolean newState2
            | _ => .ok (.bool false) .Boolean newState2
      | r => r
    | r => r
  | fuel + 1, .Ne left right, state =>
    match evaluate fuel left state with
    | .ok leftVal leftType newState =>
      match evaluate fuel right newState with
      | .ok rightVal rightType newState2 =>
        if leftType ≠ rightType then .error (.InterpTypeError "Mismatched types for Ne")
        else
          match leftType with
          | .Integer | .Boolean | .String | .FloatingPoint =>
            .ok (.bool (!(pyEq leftVal rightVal))) .Boolean newState2
          | .Unit =>
            match rightType with
            | .Unit => .ok (.bool false) .Boolean newState2
            | _ => .ok (.bool true) .Boolean newState2
      | r => r
    | r => r
  | fuel + 1, .While condition body, state =>
    match evaluate fuel condition state with
    | .ok condResult condType state2 =>
      match condType with
      | .Boolean =>
        if condResult.truthy then
          match evaluate fuel body state2 with
          | .ok _ _ state3 => evaluate fuel (.While condition body) state3
          | r => r
        else .ok condResult condType state2
      | _ => .error (.InterpTypeError "Cannot evaluate while loops")
    | r => r

/-- The driver `run_stimpl`: evaluate the program in an empty state (the
debug printing is not modelled). -/
def run_stimpl (fuel : Nat) (program : Expr) : Outcome :=
  evaluate fuel program .emptyState

/-! ## Helper lemmas -/

/-- Floor division is invariant under negating both operands (each
constructor case of `Int.fdiv` reduces to the matching case). -/
theorem fdiv_neg_neg (a b : ℤ) : Int.fdiv (-a) (-b) = Int.fdiv a b := by
  rcases a with m | m <;> rcases b with n | n
  · cases m with
    | zero => cases n <;> rfl
    | succ m =>
      cases n with
      | zero =>
        show (0 : Int) = Int.ofNat ((m + 1) / 0)
        rw [Nat.div_zero]
        rfl
      | succ n => rfl
  · cases m <;> rfl
  · cases n with
    | zero =>
      show Int.ofNat ((m + 1) / 0) = 0
      rw [Nat.div_zero]
      rfl
    | succ n => rfl
  · rfl

/-- For a natural divisor, `Int.fdiv` agrees with the floor of the exact
rational quotient. -/
theorem fdiv_eq_floor_pos (a : ℤ) (n : ℕ) : Int.fdiv a (n : ℤ) = ⌊(a : ℚ) / ((n : ℤ) : ℚ)⌋ := by
  rw [Int.fdiv_eq_ediv a (by exact_mod_cast Nat.zero_le n)]
  rw [← Rat.floor_intCast_div_natCast a n]
  norm_cast

/-- Python's `//` (`Int.fdiv`) is the floor of the exact rational
quotient, for divisors of either sign. -/
theorem fdiv_eq_floor (a b : ℤ) : Int.fdiv a b = ⌊(a : ℚ) / (b : ℚ)⌋ := by
  rcases le_or_lt 0 b with hb | hb
  · lift b to ℕ using hb
    exact fdiv_eq_floor_pos a b
  · have h2 : (0:ℤ) ≤ -b := by omega
    have hn : (((-b).toNat : ℕ) : ℤ) = -b := Int.toNat_of_nonneg h2
    rw [← fdiv_neg_neg a b, ← hn, fdiv_eq_floor_pos (-a) (-b).toNat, hn]
    push_cast
    rw [neg_div_neg_eq]

/-! ## The claims -/

/-- C1: a `While` threads state through its loop: if the condition
evaluates to a falsy Boolean, the `While` returns the condition's own
value and type together with the state the condition evaluation produced;
if it evaluates to a truthy Boolean, the body runs and the loop restarts
— and so re-checks the condition — in the state the body produced, so
bindings created in the body are visible to the condition and persist
after the loop.  The program
`Sequence[Assign(i,0), While(Lt(i,3), Assign(i,i+1)), Variable(i)]`
evaluates to value `3` of type `Integer` (with the shadow chain
`i↦3, i↦2, i↦1, i↦0` as the final state). -/
theorem while_threads_body_state_into_condition :
    (∀ (fuel : Nat) (c b : Expr) (s s1 : State) (v : Value),
      evaluate fuel c s = .ok v .Boolean s1 → v.truthy = false →
      evaluate (fuel + 1) (.While c b) s = .ok v .Boolean s1) ∧
    (∀ (fuel : Nat) (c b : Expr) (s s1 s2 : State) (vb : Value) (tb : Ty),
      evaluate fuel c s = .ok (.bool true) .Boolean s1 →
      evaluate fuel b s1 = .ok vb tb s2 →
      evaluate (fuel + 1) (.While c b) s = evaluate fuel (.While c b) s2) ∧
    evaluate 20 (.Sequence [.Assign "i" (.IntLiteral 0),
        .While (.Lt (.Variable "i") (.IntLiteral 3))
          (.Assign "i" (.Add (.Variable "i") (.IntLiteral 1))),
        .Variable "i"]) .emptyState =
      .ok (.int 3) .Integer
        (.stateNode "i" (.int 3) .Integer (.stateNode "i" (.int 2) .Integer
          (.stateNode "i" (.int 1) .Integer
            (.stateNode "i" (.int 0) .Integer .emptyState)))) := by
  refine ⟨?_, ?_, by decide⟩
  · intro fuel c b s s1 v h ht
    simp [evaluate, h, ht]
  · intro fuel c b s s1 s2 vb tb h1 h2
    simp [evaluate, h1, h2, Value.truthy]

/-- C1 witness: a `While` whose condition is immediately false returns
the condition's `(false, Boolean)` with the state unchanged. -/
theorem while_witness :
    evaluate 2 (.While (.BooleanLiteral false) .Ren) .emptyState =
      .ok (.bool false) .Boolean .emptyState :=
  while_threads_body_state_into_condition.1 1 (.BooleanLiteral false) .Ren
    .emptyState .emptyState (.bool false) rfl rfl

/-- C2 counterexample: `Divide(StringLiteral "a", IntLiteral 0)` has a
divisor that evaluates to zero, yet raises TypeError, not MathError: the
operand-type-mismatch check runs before the divide-by-zero check, so
"raises MathError regardless of the operand types" fails. -/
theorem divide_zero_mismatch_counterexample :
    evaluate 1 (.IntLiteral 0) .emptyState = .ok (.int 0) .Integer .emptyState ∧
    evaluate 2 (.Divide (.StringLiteral "a") (.IntLiteral 0)) .emptyState =
      .error (.InterpTypeError "Mismatched types for Divide") := ⟨rfl, rfl⟩

/-- C2 (amended): for every `Divide` whose operands evaluate to the
*same* type and whose divisor is Python-`==`-equal to `0`, evaluation
raises MathError, and this zero check runs before the type-specific
division — so even Boolean operands with divisor `False` give MathError
rather than the `Cannot Divide` TypeError.  In particular
`Divide(IntLiteral 4, IntLiteral 0)` raises MathError. -/
theorem divide_by_zero_matherror :
    (∀ (fuel : Nat) (l r : Expr) (s : State) (v1 : Value) (t : Ty) (s1 : State)
        (v2 : Value) (s2 : State),
      evaluate fuel l s = .ok v1 t s1 →
      evaluate fuel r s1 = .ok v2 t s2 →
      pyEq v2 (.int 0) = true →
      evaluate (fuel + 1) (.Divide l r) s = .error (.InterpMathError "Cannot Divide by Zero")) ∧
    evaluate 2 (.Divide (.IntLiteral 4) (.IntLiteral 0)) .emptyState =
      .error (.InterpMathError "Cannot Divide by Zero") ∧
    evaluate 2 (.Divide (.BooleanLiteral true) (.BooleanLiteral false)) .emptyState =
      .error (.InterpMathError "Cannot Divide by Zero") := by
  refine ⟨?_, rfl, rfl⟩
  intro fuel l r s v1 t s1 v2 s2 h1 h2 hz
  simp [evaluate, h1, h2, hz]

/-- C2 witness: the classic divide-by-zero instance, through the general
statement. -/
theorem divide_by_zero_witness :
    evaluate 2 (.Divide (.IntLiteral 4) (.IntLiteral 0)) .emptyState =
      .error (.InterpMathError "Cannot Divide by Zero") :=
  divide_by_zero_matherror.1 1 (.IntLiteral 4) (.IntLiteral 0) .emptyState
    (.int 4) .Integer .emptyState (.int 0) .emptyState rfl rfl (by decide)

/-- C3 counterexample: `Ne(Ren, IntLiteral 1)` — one operand of type
Unit, the other Integer — raises TypeError instead of succeeding with a
Boolean result: the type-equality precheck fires before the Unit arm of
`Ne` can return `true`. -/
theorem ne_unit_counterexample :
    evaluate 2 (.Ne .Ren (.IntLiteral 1)) .emptyState =
      .error (.InterpTypeError "Mismatched types for Ne") := rfl

/-- C3 (amended): an `Ne` with one operand of type Unit and the other of
a non-Unit type raises TypeError (mismatched types), in either
orientation — Unit on the left with a non-Unit right, or a non-Unit left
with Unit on the right; the source's Unit-versus-non-Unit `result = True`
arm is unreachable because the type-equality check precedes it.  When
both operands are Unit, `Ne` returns `(false, Boolean)`. -/
theorem ne_unit_nonunit_type_error :
    (∀ (fuel : Nat) (l r : Expr) (s : State) (vl : Value) (s1 : State)
        (vr : Value) (tr : Ty) (s2 : State),
      evaluate fuel l s = .ok vl .Unit s1 →
      evaluate fuel r s1 = .ok vr tr s2 →
      tr ≠ .Unit →
      evaluate (fuel + 1) (.Ne l r) s = .error (.InterpTypeError "Mismatched types for Ne")) ∧
    (∀ (fuel : Nat) (l r : Expr) (s : State) (vl : Value) (tl : Ty) (s1 : State)
        (vr : Value) (s2 : State),
      evaluate fuel l s = .ok vl tl s1 →
      evaluate fuel r s1 = .ok vr .Unit s2 →
      tl ≠ .Unit →
      evaluate (fuel + 1) (.Ne l r) s = .error (.InterpTypeError "Mismatched types for Ne")) ∧
    (∀ (fuel : Nat) (l r : Expr) (s : State) (vl : Value) (s1 : State)
        (vr : Value) (s2 : State),
      evaluate fuel l s = .ok vl .Unit s1 →
      evaluate fuel r s1 = .ok vr .Unit s2 →
      evaluate (fuel + 1) (.Ne l r) s = .ok (.bool false) .Boolean s2) := by
  refine ⟨?_, ?_, ?_⟩
  · intro fuel l r s vl s1 vr tr s2 h1 h2 htr
    have hne : Ty.Unit ≠ tr := fun h => htr h.symm
    simp [evaluate, h1, h2, hne]
  · intro fuel l r s vl tl s1 vr s2 h1 h2 htl
    simp [evaluate, h1, h2, htl]
  · intro fuel l r s vl s1 vr s2 h1 h2
    simp [evaluate, h1, h2]

/-- C3 witness: both orientations of the amended claim at concrete
inputs — `Ne(Ren, IntLiteral 1)` (Unit on the left) and
`Ne(IntLiteral 1, Ren)` (Unit on the right) each raise the mismatch
TypeError. -/
theorem ne_unit_witness :
    evaluate 2 (.Ne .Ren (.IntLiteral 1)) .emptyState =
      .error (.InterpTypeError "Mismatched types for Ne") ∧
    evaluate 2 (.Ne (.IntLiteral 1) .Ren) .emptyState =
      .error (.InterpTypeError "Mismatched types for Ne") :=
  ⟨ne_unit_nonunit_type_error.1 1 .Ren (.IntLiteral 1) .emptyState .none .emptyState
      (.int 1) .Integer .emptyState rfl rfl (by decide),
    ne_unit_nonunit_type_error.2.1 1 (.IntLiteral 1) .Ren .emptyState (.int 1) .Integer
      .emptyState .none .emptyState rfl rfl (by decide)⟩

/-- C4: `Assign(x, e)` first evaluates `e`; if `x` is unbound or bound
with the evaluated type, a new head binding is pushed (`set_value`
produces a new head node over the old state — shadowing, not mutation)
and the `Assign` returns the evaluated value and type with the extended
state; if `x` is bound with a different type, TypeError is raised.
`Sequence[Assign(x, IntLiteral 1), Assign(x, StringLiteral "a")]` raises
TypeError. -/
theorem assign_checks_type_then_shadows :
    (∀ (fuel : Nat) (x : String) (e : Expr) (s : State) (v : Value) (t : Ty) (s1 : State),
      evaluate fuel e s = .ok v t s1 →
      s1.get_value x = Option.none →
      evaluate (fuel + 1) (.Assign x e) s = .ok v t (s1.set_value x v t)) ∧
    (∀ (fuel : Nat) (x : String) (e : Expr) (s : State) (v : Value) (t : Ty) (s1 : State)
        (v0 : Value),
      evaluate fuel e s = .ok v t s1 →
      s1.get_value x = some (v0, t) →
      evaluate (fuel + 1) (.Assign x e) s = .ok v t (s1.set_value x v t)) ∧
    (∀ (fuel : Nat) (x : String) (e : Expr) (s : State) (v : Value) (t : Ty) (s1 : State)
        (v0 : Value) (t0 : Ty),
      evaluate fuel e s = .ok v t s1 →
      s1.get_value x = some (v0, t0) →
      t ≠ t0 →
      evaluate (fuel + 1) (.Assign x e) s =
        .error (.InterpTypeError "Mismatched types for Assignment")) ∧
    evaluate 3 (.Sequence [.Assign "x" (.IntLiteral 1), .Assign "x" (.StringLiteral "a")])
        .emptyState =
      .error (.InterpTypeError "Mismatched types for Assignment") := by
  refine ⟨?_, ?_, ?_, rfl⟩
  · intro fuel x e s v t s1 h hg
    simp [evaluate, h, hg]
  · intro fuel x e s v t s1 v0 h hg
    simp [evaluate, h, hg]
  · intro fuel x e s v t s1 v0 t0 h hg ht
    simp [evaluate, h, hg, ht]

/-- C4 witness: assigning a String to a name bound as Integer raises the
assignment TypeError. -/
theorem assign_witness :
    evaluate 2 (.Assign "x" (.StringLiteral "a"))
        (.stateNode "x" (.int 1) .Integer .emptyState) =
      .error (.InterpTypeError "Mismatched types for Assignment") :=
  assign_checks_type_then_shadows.2.2.1 1 "x" (.StringLiteral "a")
    (.stateNode "x" (.int 1) .Integer .emptyState) (.str "a") .String
    (.stateNode "x" (.int 1) .Integer .emptyState) (.int 1) .Integer
    rfl rfl (by decide)

/-- C5: reading an unbound `Variable` fails with the interpreter's
read-before-assignment error (an `InterpSyntaxError`, matching the
error-handling design's classification; "NameError" is only the spec
table's label for the same failure); a bound name returns the nearest
binding's value and type with the state unchanged, and in particular a
head binding wins over anything deeper in the chain. -/
theorem variable_unbound_error_bound_nearest :
    (∀ (fuel : Nat) (x : String) (s : State),
      s.get_value x = Option.none →
      evaluate (fuel + 1) (.Variable x) s =
        .error (.InterpSyntaxError ("Cannot read from " ++ x ++ " before assignment."))) ∧
    (∀ (fuel : Nat) (x : String) (s : State) (v : Value) (t : Ty),
      s.get_value x = some (v, t) →
      evaluate (fuel + 1) (.Variable x) s = .ok v t s) ∧
    (∀ (fuel : Nat) (x : String) (v : Value) (t : Ty) (tail : State),
      evaluate (fuel + 1) (.Variable x) (.stateNode x v t tail) =
        .ok v t (.stateNode x v t tail)) := by
  refine ⟨?_, ?_, ?_⟩
  · intro fuel x s h
    simp [evaluate, h]
  · intro fuel x s v t h
    simp [evaluate, h]
  · intro fuel x v t tail
    simp [evaluate, State.get_value]

/-- C5 witness: reading `q` in the empty state raises the
read-before-assignment error. -/
theorem variable_witness :
    evaluate 1 (.Variable "q") .emptyState =
      .error (.InterpSyntaxError ("Cannot read from " ++ "q" ++ " before assignment.")) :=
  variable_unbound_error_bound_nearest.1 0 "q" .emptyState rfl

/-- C6: `And`/`Or` always evaluate both operands — the result state is
the one produced by the right operand even when the left operand already
determines the result, so right-operand effects (such as an `Assign`)
always occur; both operands must be Boolean, with mismatched types or a
shared non-Boolean type raising TypeError; the result is the logical
conjunction/disjunction with type Boolean.  The concrete conjuncts show
a right-operand `Assign` binding appearing in the final state when the
left operand is `false` for `And` and `true` for `Or`. -/
theorem and_or_evaluate_both_operands :
    (∀ (fuel : Nat) (l r : Expr) (s : State) (a c : Bool) (s1 s2 : State),
      evaluate fuel l s = .ok (.bool a) .Boolean s1 →
      evaluate fuel r s1 = .ok (.bool c) .Boolean s2 →
      evaluate (fuel + 1) (.And l r) s = .ok (.bool (a && c)) .Boolean s2) ∧
    (∀ (fuel : Nat) (l r : Expr) (s : State) (a c : Bool) (s1 s2 : State),
      evaluate fuel l s = .ok (.bool a) .Boolean s1 →
      evaluate fuel r s1 = .ok (.bool c) .Boolean s2 →
      evaluate (fuel + 1) (.Or l r) s = .ok (.bool (a || c)) .Boolean s2) ∧
    (∀ (fuel : Nat) (l r : Expr) (s : State) (vl vr : Value) (tl tr : Ty) (s1 s2 : State),
      evaluate fuel l s = .ok vl tl s1 →
      evaluate fuel r s1 = .ok vr tr s2 →
      tl ≠ tr →
      evaluate (fuel + 1) (.And l r) s = .error (.InterpTypeError "Mismatched types for And")) ∧
    (∀ (fuel : Nat) (l r : Expr) (s : State) (vl vr : Value) (tl : Ty) (s1 s2 : State),
      evaluate fuel l s = .ok vl tl s1 →
      evaluate fuel r s1 = .ok vr tl s2 →
      tl ≠ .Boolean →
      evaluate (fuel + 1) (.And l r) s =
        .error (.InterpTypeError "Cannot perform logical and on non-boolean operands.")) ∧
    (∀ (fuel : Nat) (l r : Expr) (s : State) (vl vr : Value) (tl tr : Ty) (s1 s2 : State),
      evaluate fuel l s = .ok vl tl s1 →
      evaluate fuel r s1 = .ok vr tr s2 →
      tl ≠ tr →
      evaluate (fuel + 1) (.Or l r) s = .error (.InterpTypeError "Mismatched types for Or")) ∧
    (∀ (fuel : Nat) (l r : Expr) (s : State) (vl vr : Value) (tl : Ty) (s1 s2 : State),
      evaluate fuel l s = .ok vl tl s1 →
      evaluate fuel r s1 = .ok vr tl s2 →
      tl ≠ .Boolean →
      evaluate (fuel + 1) (.Or l r) s =
        .error (.InterpTypeError "Cannot perform logical or on non-boolean operands.")) ∧
    evaluate 3 (.And (.BooleanLiteral false) (.Assign "y" (.BooleanLiteral true))) .emptyState =
      .ok (.bool false) .Boolean (.stateNode "y" (.bool true) .Boolean .emptyState) ∧
    evaluate 3 (.Or (.BooleanLiteral true) (.Assign "z" (.BooleanLiteral false))) .emptyState =
      .ok (.bool true) .Boolean (.stateNode "z" (.bool false) .Boolean .emptyState) := by
  refine ⟨?_, ?_, ?_, ?_, ?_, ?_, rfl, rfl⟩
  · intro fuel l r s a c s1 s2 h1 h2
    cases a <;> simp [evaluate, h1, h2, pyAnd, Value.truthy]
  · intro fuel l r s a c s1 s2 h1 h2
    cases a <;> simp [evaluate, h1, h2, pyOr, Value.truthy]
  · intro fuel l r s vl vr tl tr s1 s2 h1 h2 ht
    simp [evaluate, h1, h2, ht]
  · intro fuel l r s vl vr tl s1 s2 h1 h2 ht
    cases tl <;> simp_all [evaluate]
  · intro fuel l r s vl vr tl tr s1 s2 h1 h2 ht
    simp [evaluate, h1, h2, ht]
  · intro fuel l r s vl vr tl s1 s2 h1 h2 ht
    cases tl <;> simp_all [evaluate]

/-- C6 witness: `And` of two Boolean literals, through the general
statement (the right operand is evaluated although the left is false). -/
theorem and_or_witness :
    evaluate 2 (.And (.BooleanLiteral false) (.BooleanLiteral true)) .emptyState =
      .ok (.bool (false && true)) .Boolean .emptyState :=
  and_or_evaluate_both_operands.1 1 (.BooleanLiteral false) (.BooleanLiteral true)
    .emptyState false true .emptyState .emptyState rfl rfl

/-- C7: when both comparison operands evaluate to type Unit, `Eq`, `Lte`
and `Gte` return `true`, `Ne` returns `false`, and `Lt` and `Gt` return
`false`, always with result type Boolean; `Eq(Ren, Ren)` evaluates to
`(true, Boolean)` with the state unchanged. -/
theorem unit_comparisons :
    (∀ (fuel : Nat) (l r : Expr) (s : State) (vl : Value) (s1 : State) (vr : Value) (s2 : State),
      evaluate fuel l s = .ok vl .Unit s1 →
      evaluate fuel r s1 = .ok vr .Unit s2 →
      evaluate (fuel + 1) (.Eq l r) s = .ok (.bool true) .Boolean s2 ∧
      evaluate (fuel + 1) (.Lte l r) s = .ok (.bool true) .Boolean s2 ∧
      evaluate (fuel + 1) (.Gte l r) s = .ok (.bool true) .Boolean s2 ∧
      evaluate (fuel + 1) (.Ne l r) s = .ok (.bool false) .Boolean s2 ∧
      evaluate (fuel + 1) (.Lt l r) s = .ok (.bool false) .Boolean s2 ∧
      evaluate (fuel + 1) (.Gt l r) s = .ok (.bool false) .Boolean s2) ∧
    evaluate 2 (.Eq .Ren .Ren) .emptyState = .ok (.bool true) .Boolean .emptyState := by
  refine ⟨?_, rfl⟩
  intro fuel l r s vl s1 vr s2 h1 h2
  refine ⟨?_, ?_, ?_, ?_, ?_, ?_⟩ <;> simp [evaluate, h1, h2]

/-- C7 witness: all six comparisons on `Ren` operands, through the
general statement. -/
theorem unit_comparisons_witness :
    evaluate 2 (.Eq .Ren .Ren) .emptyState = .ok (.bool true) .Boolean .emptyState ∧
    evaluate 2 (.Lte .Ren .Ren) .emptyState = .ok (.bool true) .Boolean .emptyState ∧
    evaluate 2 (.Gte .Ren .Ren) .emptyState = .ok (.bool true) .Boolean .emptyState ∧
    evaluate 2 (.Ne .Ren .Ren) .emptyState = .ok (.bool false) .Boolean .emptyState ∧
    evaluate 2 (.Lt .Ren .Ren) .emptyState = .ok (.bool false) .Boolean .emptyState ∧
    evaluate 2 (.Gt .Ren .Ren) .emptyState = .ok (.bool false) .Boolean .emptyState :=
  unit_comparisons.1 1 .Ren .Ren .emptyState .none .emptyState .none .emptyState rfl rfl

/-- C8: `Sequence` and `Program` are evaluated identically; the empty
list gives `(None, Unit)` with the state unchanged; a singleton gives
its element's result; and for a longer list the state produced by the
first element is the input state for the rest, so the state threads
left-to-right and the last element's value and type are the result. -/
theorem sequence_program_semantics :
    (∀ (fuel : Nat) (s : State),
      evaluate (fuel + 1) (.Sequence []) s = .ok .none .Unit s) ∧
    (∀ (fuel : Nat) (s : State),
      evaluate (fuel + 1) (.Program []) s = .ok .none .Unit s) ∧
    (∀ (fuel : Nat) (es : List Expr) (s : State),
      evaluate fuel (.Program es) s = evaluate fuel (.Sequence es) s) ∧
    (∀ (fuel : Nat) (e : Expr) (s : State),
      evaluate (fuel + 1) (.Sequence [e]) s = evaluate fuel e s) ∧
    (∀ (fuel : Nat) (e : Expr) (es : List Expr) (s : State) (v : Value) (t : Ty) (s1 : State),
      es ≠ [] →
      evaluate fuel e s = .ok v t s1 →
      evaluate (fuel + 1) (.Sequence (e :: es)) s = evaluate (fuel + 1) (.Sequence es) s1) := by
  refine ⟨?_, ?_, ?_, ?_, ?_⟩
  · intro fuel s
    simp [evaluate, evalSeqLoop]
  · intro fuel s
    simp [evaluate, evalSeqLoop]
  · intro fuel es s
    cases fuel <;> rfl
  · intro fuel e s
    cases h : evaluate fuel e s <;> simp [evaluate, evalSeqLoop, h]
  · intro fuel e es s v t s1 hne h
    cases es with
    | nil => exact absurd rfl hne
    | cons e2 rest => simp [evaluate, evalSeqLoop, h]

/-- C8 witness: a two-element `Sequence` continues in the state left by
its first element. -/
theorem sequence_witness :
    evaluate 2 (.Sequence [.IntLiteral 1, .IntLiteral 2]) .emptyState =
      evaluate 2 (.Sequence [.IntLiteral 2]) .emptyState :=
  sequence_program_semantics.2.2.2.2 1 (.IntLiteral 1) [.IntLiteral 2] .emptyState
    (.int 1) .Integer .emptyState (List.cons_ne_nil _ _) rfl

/-- C9: integer `Divide` with a nonzero divisor computes `Int.fdiv`
(Python `//`), which equals the floor of the exact rational quotient —
division truncates toward negative infinity; dividing `-7` by `2` yields
`-4`. -/
theorem integer_division_floors :
    (∀ (fuel : Nat) (l r : Expr) (s : State) (a : ℤ) (s1 : State) (b : ℤ) (s2 : State),
      evaluate fuel l s = .ok (.int a) .Integer s1 →
      evaluate fuel r s1 = .ok (.int b) .Integer s2 →
      b ≠ 0 →
      evaluate (fuel + 1) (.Divide l r) s = .ok (.int (Int.fdiv a b)) .Integer s2 ∧
      Int.fdiv a b = ⌊(a : ℚ) / (b : ℚ)⌋) ∧
    evaluate 2 (.Divide (.IntLiteral (-7)) (.IntLiteral 2)) .emptyState =
      .ok (.int (-4)) .Integer .emptyState := by
  refine ⟨?_, rfl⟩
  intro fuel l r s a s1 b s2 h1 h2 hb
  have hz : pyEq (.int b) (.int 0) = false := by
    simp [pyEq, Value.asRat?]
    exact_mod_cast hb
  refine ⟨?_, fdiv_eq_floor a b⟩
  simp [evaluate, h1, h2, hz, pyFloordiv]

/-- C9 witness: `-7` divided by `2`, through the general statement. -/
theorem integer_division_witness :
    evaluate 2 (.Divide (.IntLiteral (-7)) (.IntLiteral 2)) .emptyState =
      .ok (.int (Int.fdiv (-7) 2)) .Integer .emptyState ∧
    Int.fdiv (-7) 2 = ⌊((-7 : ℤ) : ℚ) / ((2 : ℤ) : ℚ)⌋ :=
  integer_division_floors.1 1 (.IntLiteral (-7)) (.IntLiteral 2) .emptyState
    (-7) .emptyState 2 .emptyState rfl rfl (by decide)

/-- C10: `Variable(x)` raises an error exactly when no binding for `x`
exists — `get_value` returns the whole `(value, type)` pair, so a stored
Unit value (Python `None`) is never mistaken for the missing-binding
sentinel; after any successful `Assign(x, e)` — in particular one whose
value has type Unit — `Variable(x)` returns the assigned value and type,
and `Sequence[Assign(x, Ren), Variable(x)]` yields `(None, Unit)`. -/
theorem unit_binding_lookup_roundtrip :
    (∀ (fuel : Nat) (x : String) (s : State),
      (∃ err, evaluate (fuel + 1) (.Variable x) s = .error err) ↔
        s.get_value x = Option.none) ∧
    (∀ (fuel fuel2 : Nat) (x : String) (e : Expr) (s : State) (v : Value) (t : Ty) (s' : State),
      evaluate fuel (.Assign x e) s = .ok v t s' →
      evaluate (fuel2 + 1) (.Variable x) s' = .ok v t s') ∧
    evaluate 3 (.Sequence [.Assign "x" .Ren, .Variable "x"]) .emptyState =
      .ok .none .Unit (.stateNode "x" .none .Unit .emptyState) := by
  refine ⟨?_, ?_, rfl⟩
  · intro fuel x s
    constructor
    · rintro ⟨err, herr⟩
      cases hg : State.get_value s x with
      | none => rfl
      | some p =>
        rcases p with ⟨v, t⟩
        simp [evaluate, hg] at herr
    · intro h
      exact ⟨.InterpSyntaxError ("Cannot read from " ++ x ++ " before assignment."),
        by simp [evaluate, h]⟩
  · intro fuel fuel2 x e s v t s' h
    cases fuel with
    | zero => simp [evaluate] at h
    | succ f =>
      cases he : evaluate f e s with
      | ok v1 t1 s1 =>
        simp only [evaluate, he] at h
        cases hg : State.get_value s1 x with
        | none =>
          simp only [hg] at h
          cases h
          simp [evaluate, State.set_value, State.get_value]
        | some p =>
          rcases p with ⟨v0, t0⟩
          simp only [hg] at h
          by_cases ht : t1 = t0
          · simp only [ht, ne_eq, not_true_eq_false, if_false] at h
            cases h
            simp [evaluate, State.set_value, State.get_value]
          · simp only [ne_eq, ht, not_false_eq_true, if_true] at h
            cases h
      | error err =>
        simp only [evaluate, he] at h
        cases h
      | fuelOut =>
        simp only [evaluate, he] at h
        cases h

/-- C10 witness: after binding `x` to the Unit value, reading `x`
returns `(None, Unit)` rather than the read-before-assignment error. -/
theorem unit_binding_witness :
    evaluate 1 (.Variable "x") (.stateNode "x" .none .Unit .emptyState) =
      .ok .none .Unit (.stateNode "x" .none .Unit .emptyState) :=
  unit_binding_lookup_roundtrip.2.1 2 0 "x" .Ren .emptyState .none .Unit
    (.stateNode "x" .none .Unit .emptyState) rfl

end Stimpl
